import Mathlib

/-!
Verification development for the SliceNMorph3D cutting subsystem.

The definitions below are a shallow embedding of
`src/components/ui/editor/useCuttingLogic.ts` (the current version of the
hook, together with `useModelLoading` from the same module family).
Geometry is modelled over the real numbers; the three.js vector,
quaternion, plane and bounding-box operations the code relies on are
translated operation by operation from their three.js semantics.
-/

namespace SliceNMorph

noncomputable section

/-- `THREE.Vector3`. -/
structure Vec3 where
  x : ℝ
  y : ℝ
  z : ℝ

namespace Vec3

/-- `Vector3.subVectors a b` (componentwise `a - b`). -/
def sub (a b : Vec3) : Vec3 :=
  ⟨a.x - b.x, a.y - b.y, a.z - b.z⟩

/-- `Vector3.addVectors a b`. -/
def add (a b : Vec3) : Vec3 :=
  ⟨a.x + b.x, a.y + b.y, a.z + b.z⟩

/-- `Vector3.multiplyScalar s`. -/
def smul (s : ℝ) (a : Vec3) : Vec3 :=
  ⟨s * a.x, s * a.y, s * a.z⟩

/-- `Vector3.crossVectors a b`. -/
def cross (a b : Vec3) : Vec3 :=
  ⟨a.y * b.z - a.z * b.y, a.z * b.x - a.x * b.z, a.x * b.y - a.y * b.x⟩

/-- `Vector3.dot`. -/
def dot (a b : Vec3) : ℝ :=
  a.x * b.x + a.y * b.y + a.z * b.z

/-- `Vector3.lengthSq`. -/
def lengthSq (a : Vec3) : ℝ :=
  a.x * a.x + a.y * a.y + a.z * a.z

/-- `Vector3.length`. -/
def length (a : Vec3) : ℝ :=
  Real.sqrt a.lengthSq

/-- `Vector3.normalize`, which is `divideScalar(this.length() || 1)`:
the zero vector has length `0`, so the JavaScript `|| 1` fallback divides
it by `1` and returns it unchanged; otherwise every component is divided
by the length. -/
def normalize (a : Vec3) : Vec3 :=
  if a.length = 0 then a else ⟨a.x / a.length, a.y / a.length, a.z / a.length⟩

/-- `Vector3.distanceToSquared`. -/
def distanceToSquared (a b : Vec3) : ℝ :=
  lengthSq (sub a b)

/-- `Vector3.distanceTo`. -/
def distanceTo (a b : Vec3) : ℝ :=
  Real.sqrt (distanceToSquared a b)

end Vec3

/-- `THREE.Quaternion`. -/
structure Quat where
  x : ℝ
  y : ℝ
  z : ℝ
  w : ℝ

/-- `Vector3.applyQuaternion q` for a unit quaternion `q`: with
`t = 2 * cross(q.xyz, v)` the result is `v + q.w * t + cross(q.xyz, t)`. -/
def applyQuaternion (q : Quat) (v : Vec3) : Vec3 :=
  let tx := 2 * (q.y * v.z - q.z * v.y)
  let ty := 2 * (q.z * v.x - q.x * v.z)
  let tz := 2 * (q.x * v.y - q.y * v.x)
  ⟨v.x + q.w * tx + (q.y * tz - q.z * ty),
   v.y + q.w * ty + (q.z * tx - q.x * tz),
   v.z + q.w * tz + (q.x * ty - q.y * tx)⟩

/-- The identity quaternion: a camera placed on the +Z axis looking at the
origin with +Y up has this orientation. -/
def identityQuat : Quat := ⟨0, 0, 0, 1⟩

/-- `THREE.Plane`: a normal vector and the scalar `constant`. -/
structure Plane where
  normal : Vec3
  constant : ℝ

/-- `Plane.setFromNormalAndCoplanarPoint n p`: normal `n`,
`constant = -(p . n)`. -/
def Plane.setFromNormalAndCoplanarPoint (n p : Vec3) : Plane :=
  ⟨n, -(Vec3.dot p n)⟩

/-- `Plane.distanceToPoint p = n . p + constant`. -/
def Plane.distanceToPoint (pl : Plane) (p : Vec3) : ℝ :=
  Vec3.dot pl.normal p + pl.constant

/-- Componentwise minimum (`Box3.expandByPoint` on the `min` corner). -/
def vmin (a b : Vec3) : Vec3 :=
  ⟨min a.x b.x, min a.y b.y, min a.z b.z⟩

/-- Componentwise maximum (`Box3.expandByPoint` on the `max` corner). -/
def vmax (a b : Vec3) : Vec3 :=
  ⟨max a.x b.x, max a.y b.y, max a.z b.z⟩

/-- `new THREE.Box3().setFromObject(obj)` over the world-space vertex
positions of the object: the componentwise min and max corners, or `none`
for an object with no vertices (the empty box). -/
def box3 : List Vec3 → Option (Vec3 × Vec3)
  | [] => none
  | p :: ps => some (ps.foldl (fun c q => (vmin c.1 q, vmax c.2 q)) (p, p))

/-- `Box3.getCenter`: the midpoint of the corners; the zero vector for the
empty box (three.js returns `(0,0,0)` in that case). -/
def boxCenter (pts : List Vec3) : Vec3 :=
  match box3 pts with
  | none => ⟨0, 0, 0⟩
  | some (mn, mx) => Vec3.smul (1 / 2) (Vec3.add mn mx)

/-- `Box3.getSize`: `max - min`; the zero vector for the empty box. -/
def boxSize (pts : List Vec3) : Vec3 :=
  match box3 pts with
  | none => ⟨0, 0, 0⟩
  | some (mn, mx) => Vec3.sub mx mn

/-- The cutting-plane derivation of the commit path, translated from
`performCut` (useCuttingLogic.ts lines 1217-1236): the model center is the
bounding-box center, `dragVector = endPoint - startPoint`, `cameraRight`
is `(1,0,0)` rotated by the camera quaternion, the normal is
`normalize(cross(dragVector, cameraRight))`, and the plane is set from
that normal and the model center. -/
def performCutPlane (modelWorldVerts : List Vec3) (cameraQuat : Quat)
    (startPoint endPoint : Vec3) : Plane :=
  let modelCenter := boxCenter modelWorldVerts
  let dragVector := Vec3.sub endPoint startPoint
  let cameraRight := applyQuaternion cameraQuat ⟨1, 0, 0⟩
  let planeNormal := Vec3.normalize (Vec3.cross dragVector cameraRight)
  Plane.setFromNormalAndCoplanarPoint planeNormal modelCenter

/-- The cutting-plane derivation of the live-preview path, translated from
`updateCuttingPlanePreview` (useCuttingLogic.ts lines 1528-1552): model
bounding-box center, `dragVector = endPoint - startPoint`, `cameraRight`
rotated by the camera quaternion, normal from the cross product, plane set
from normal and model center. -/
def previewPlane (modelWorldVerts : List Vec3) (cameraQuat : Quat)
    (startPoint endPoint : Vec3) : Plane :=
  let modelCenter := boxCenter modelWorldVerts
  let dragVector := Vec3.sub endPoint startPoint
  let cameraRight := applyQuaternion cameraQuat ⟨1, 0, 0⟩
  let planeNormal := Vec3.normalize (Vec3.cross dragVector cameraRight)
  Plane.setFromNormalAndCoplanarPoint planeNormal modelCenter

/-- The Cutting Plane Solver as the specification words it (section 4.2):
`dragVector = end - start`; `cameraRight = (1,0,0)` rotated by the
camera's orientation; `normal = normalize(cross(dragVector, cameraRight))`;
the plane passes through the model's bounding-box center.  Stated
separately from the code-derived `performCutPlane` so the two can be
compared. -/
def specSolverPlane (modelWorldVerts : List Vec3) (cameraQuat : Quat)
    (startPoint endPoint : Vec3) : Plane :=
  let dragVector := Vec3.sub endPoint startPoint
  let cameraRight := applyQuaternion cameraQuat ⟨1, 0, 0⟩
  let normal := Vec3.normalize (Vec3.cross dragVector cameraRight)
  Plane.setFromNormalAndCoplanarPoint normal (boxCenter modelWorldVerts)

/-- The editor mode enumeration (`EditorMode` in useMouseHandlers.ts). -/
inductive EditorMode
  | view
  | cut
  | move
deriving DecidableEq

/-- A `THREE.Material` as the state machine observes it: an object
identity (`id`, fresh per allocated material object) and its parameters
(`color`).  `clone()` produces a new object with the same parameters. -/
structure Material where
  id : Nat
  color : Nat
deriving DecidableEq

/-- A mesh node of the scene graph: object identity, the material
currently assigned to it, and the `userData.isOriginalModel` tag. -/
structure MeshNode where
  id : Nat
  material : Material
  isOriginalModel : Bool
deriving DecidableEq

/-- A `THREE.Group` holding one side of a cut (`Part1` / `Part2`): its
mesh children, the world-space vertex positions of its geometry at
position zero and scale one (these drive `Box3.setFromObject`), its
`position`, and its uniform `scale`. -/
structure PartGroup where
  name : String
  children : List MeshNode
  verts : List Vec3
  position : Vec3
  scale : ℝ

/-- World-space vertex positions of a part group under its current
position and scale. -/
def PartGroup.worldVerts (g : PartGroup) : List Vec3 :=
  g.verts.map (fun v => Vec3.add g.position (Vec3.smul g.scale v))

/-- The loaded model (`modelRef.current`): all of its descendant nodes in
traverse order, its local-frame vertex positions, and its root `position`
and uniform `scale`. -/
structure Model where
  nodes : List MeshNode
  verts : List Vec3
  position : Vec3
  scale : ℝ

/-- World-space vertex positions of the model under its current position
and scale. -/
def Model.worldVerts (m : Model) : List Vec3 :=
  m.verts.map (fun v => Vec3.add m.position (Vec3.smul m.scale v))

/-- The scene graph as the cutting subsystem observes it: whether the
original model is attached, the other mesh residents of the scene, and
the part groups currently attached. -/
structure Scene where
  modelInScene : Bool
  strayMeshes : List MeshNode
  parts : List PartGroup

/-- The combined state of the `useCuttingLogic` and `useModelLoading`
hooks: the refs, the React state set through `setEditorMode` /
`setError`, and the scene.  `editorModeRef` is the `editorModeRef.current`
guard value and `displayMode` the React `editorMode` state (the code keeps
both and they can diverge).  `frozenPlane` is the `cuttingPlane` captured
by the asynchronous mesh loop scheduled at the end of `performCut`.
`nextMaterialId` is the allocator for fresh material objects. -/
structure EditorState where
  hasScene : Bool
  hasCamera : Bool
  hasRenderer : Bool
  hasControls : Bool
  scene : Scene
  model : Option Model
  cameraQuat : Quat
  editorModeRef : EditorMode
  displayMode : EditorMode
  controlsEnabled : Bool
  isProcessing : Bool
  cutCount : Nat
  mouseStart : Option Vec3
  mouseEnd : Option Vec3
  objectParts : List String
  selectedPart : Option String
  savedMaterials : List (String × Material)
  nextMaterialId : Nat
  dragControls : Option (List String)
  clickListener : Bool
  planeHelper : Option Plane
  frozenPlane : Option Plane
  errorMsg : Option String
  loadingProgress : Nat
  modelLoaded : Bool

/-- `"Already processing a cut operation"` (performCut). -/
def msgProcessingBusy : String := "Already processing a cut operation"

/-- `"Missing scene or model reference"` (performCut). -/
def msgMissingRefs : String := "Missing scene or model reference"

/-- `"Invalid cutting points"` (performCut). -/
def msgInvalidPoints : String := "Invalid cutting points"

/-- `"Model can only be cut once."` (performCut, one-shot gate). -/
def msgOneShotPerformCut : String := "Model can only be cut once."

/-- One-shot message of `toggleEditorMode`. -/
def msgOneShotToggle : String :=
  "Model can only be cut once. Use Reset if you want to cut again."

/-- `"Processing cut operation..."` (performCut, commit started). -/
def msgProcessingCut : String := "Processing cut operation..."

/-- Completion message of `finalizeGroupCut`. -/
def msgCutComplete : String :=
  "Cut complete! The model has been divided into 2 parts."

/-- Failure report of `finalizeGroupCut` when one side is empty
(the thrown message prefixed by the catch block's `Cut failed: `). -/
def msgSideEmpty : String :=
  "Cut failed: Cutting failed - one of the parts is empty. Try a different cut angle."

/-- Failure report of `finalizeGroupCut` when the scene or model ref is
missing. -/
def msgMissingRefsFinalize : String := "Cut failed: Missing scene or model reference"

/-- `"Scene not initialized"` (useModelLoading.loadModel). -/
def msgSceneNotInitialized : String := "Scene not initialized"

/-- `setupDragControls` (useCuttingLogic.ts lines 1006-1029): returns
early when the camera or renderer ref is missing, otherwise disposes the
old `DragControls` and wires a new one to the given objects. -/
def setupDragControls (s : EditorState) (objs : List String) : EditorState :=
  if ¬ s.hasCamera ∨ ¬ s.hasRenderer then s
  else { s with dragControls := some objs }

/-- `performCut` (useCuttingLogic.ts lines 1181-1251), its synchronous
prefix: the not-in-Cut-mode guard (silent return), the missing-refs /
re-entrancy guard, the invalid-points guard, the silent too-close guard,
the one-shot guard, and finally the plane derivation; on the commit path
the processing flag is raised, the progress message is reported, and the
frozen plane is captured for the chunked mesh loop scheduled through
`requestAnimationFrame`/`setTimeout`. -/
def performCut (s : EditorState) : EditorState :=
  if s.editorModeRef ≠ EditorMode.cut then s
  else if s.isProcessing then { s with errorMsg := some msgProcessingBusy }
  else if ¬ s.hasScene then { s with errorMsg := some msgMissingRefs }
  else
    match s.model with
    | none => { s with errorMsg := some msgMissingRefs }
    | some model =>
      match s.mouseStart, s.mouseEnd with
      | some startPoint, some endPoint =>
        if Vec3.distanceTo startPoint endPoint < 1 / 10 then s
        else if 0 < s.cutCount then
          { s with errorMsg := some msgOneShotPerformCut,
                   displayMode := EditorMode.move }
        else
          { s with isProcessing := true,
                   errorMsg := some msgProcessingCut,
                   frozenPlane := some (performCutPlane model.worldVerts
                     s.cameraQuat startPoint endPoint) }
      | _, _ => { s with errorMsg := some msgInvalidPoints }

/-- `updateCuttingPlanePreview` (useCuttingLogic.ts lines 1528-1574):
returns early without a scene or model ref; otherwise replaces the stored
plane-helper with one built from the preview plane derivation. -/
def updateCuttingPlanePreview (s : EditorState) (startPoint endPoint : Vec3) :
    EditorState :=
  match s.model with
  | none => s
  | some model =>
    if ¬ s.hasScene then s
    else { s with planeHelper := some (previewPlane model.worldVerts
             s.cameraQuat startPoint endPoint) }

/-- `toggleEditorMode` (useCuttingLogic.ts lines 1706-1750): clears the
preview helper when leaving Cut mode; rejects Cut-mode entry once the cut
counter is positive (one-shot message, both mode refs forced to Move,
drag controls rewired); otherwise switches both mode refs, toggles the
orbit controls, and wires or removes the part drag controls and the
document click listener. -/
def toggleEditorMode (s : EditorState) (mode : EditorMode) : EditorState :=
  let prevMode := s.editorModeRef
  let s1 := if prevMode = EditorMode.cut ∧ mode ≠ EditorMode.cut ∧
               s.planeHelper.isSome ∧ s.hasScene
            then { s with planeHelper := none } else s
  if mode = EditorMode.cut ∧ 0 < s.cutCount then
    let s2 := { s1 with errorMsg := some msgOneShotToggle,
                        editorModeRef := EditorMode.move,
                        displayMode := EditorMode.move }
    if s2.objectParts ≠ [] then setupDragControls s2 s2.objectParts else s2
  else
    let s2 := { s1 with editorModeRef := mode, displayMode := mode }
    let s3 := if s2.hasControls
              then { s2 with controlsEnabled := mode = EditorMode.view }
              else s2
    if mode = EditorMode.move ∧ s3.objectParts ≠ [] then
      let s4 := setupDragControls s3 s3.objectParts
      if 0 < s4.cutCount then { s4 with clickListener := true } else s4
    else
      { s3 with clickListener := false }

/-- The ordered observable effects of the part-assembly path of
`finalizeGroupCut`, used to state in which order the assembly mutates the
scene. -/
inductive AssembleStep
  | clearPrevParts
  | removeModel
  | sweepScene
  | tagModel
  | separateParts
  | clampScale
  | addParts
  | incrementCutCount
  | clearSelection
  | setModeMove
deriving DecidableEq

/-- `finalizeGroupCut` (useCuttingLogic.ts lines 1031-1166).  The whole
body is wrapped in try/catch; a thrown message `m` is reported as
`Cut failed: m` with the processing flag cleared.  The success path, in
source order: (1) remove any previously stored parts from their parents
(lines 1047-1052); (2) remove the original model from its parent (lines
1056-1058); (3) defensively sweep the scene for meshes still tagged
`isOriginalModel` (lines 1062-1073); (4) only then tag every node of the
(already detached) model (lines 1076-1078); (5) measure the original
model, reset the group positions (the matrix copy of lines 1090-1097 is
immediately discarded by re-enabling `matrixAutoUpdate`), separate the
parts along the center-to-center direction by
`max 0.5 (0.1 * |originalSize|)`; (6) clamp a part whose bounding diagonal
exceeds 1.5 times the original; (7) add both parts to the scene, bump the
cut counter, rewire drag controls, clear the selection, and report
completion on a 300 ms timer.  The returned list is the order in which
those effects happen. -/
def finalizeGroupCut (s : EditorState) (part1Group part2Group : PartGroup) :
    EditorState × List AssembleStep :=
  match s.model with
  | none => ({ s with isProcessing := false,
                      errorMsg := some msgMissingRefsFinalize }, [])
  | some model =>
    if ¬ s.hasScene then
      ({ s with isProcessing := false,
                errorMsg := some msgMissingRefsFinalize }, [])
    else if part1Group.children.length = 0 ∨ part2Group.children.length = 0 then
      ({ s with isProcessing := false, errorMsg := some msgSideEmpty }, [])
    else
      let sceneParts1 := s.scene.parts.filter
        (fun g => ¬ s.objectParts.contains g.name)
      let scene2 : Scene := { s.scene with parts := sceneParts1,
                                           modelInScene := false }
      let scene3 : Scene := { scene2 with
        strayMeshes := scene2.strayMeshes.filter (fun n => ¬ n.isOriginalModel) }
      let model4 : Model := { model with
        nodes := model.nodes.map (fun n => { n with isOriginalModel := true }) }
      let originalSize := boxSize model4.worldVerts
      let p1a := { part1Group with position := (⟨0, 0, 0⟩ : Vec3) }
      let p2a := { part2Group with position := (⟨0, 0, 0⟩ : Vec3) }
      let center1 := boxCenter p1a.worldVerts
      let center2 := boxCenter p2a.worldVerts
      let separationDir := Vec3.normalize (Vec3.sub center1 center2)
      let offset := max (1 / 2) (originalSize.length * (1 / 10))
      let p1b := { p1a with
        position := Vec3.add p1a.position (Vec3.smul offset separationDir) }
      let p2b := { p2a with
        position := Vec3.add p2a.position (Vec3.smul (-offset) separationDir) }
      let part1Size := boxSize p1b.worldVerts
      let part2Size := boxSize p2b.worldVerts
      let p1c := if originalSize.length * (3 / 2) < part1Size.length
                 then { p1b with
                   scale := p1b.scale * (originalSize.length / part1Size.length) }
                 else p1b
      let p2c := if originalSize.length * (3 / 2) < part2Size.length
                 then { p2b with
                   scale := p2b.scale * (originalSize.length / part2Size.length) }
                 else p2b
      let scene7 : Scene := { scene3 with parts := scene3.parts ++ [p1c, p2c] }
      let s7 := { s with scene := scene7,
                         model := some model4,
                         objectParts := [p1c.name, p2c.name],
                         cutCount := s.cutCount + 1 }
      let s8 := setupDragControls s7 [p1c.name, p2c.name]
      let s9 := { s8 with selectedPart := none,
                          savedMaterials := [],
                          displayMode := EditorMode.move }
      let s10 := { s9 with isProcessing := false,
                           errorMsg := some msgCutComplete }
      (s10, [AssembleStep.clearPrevParts, AssembleStep.removeModel,
             AssembleStep.sweepScene, AssembleStep.tagModel,
             AssembleStep.separateParts, AssembleStep.clampScale,
             AssembleStep.addParts, AssembleStep.incrementCutCount,
             AssembleStep.clearSelection, AssembleStep.setModeMove])

/-- `Map.get` on the saved-materials map (`originalMaterialsRef`),
keyed here by the part group's name. -/
def savedLookup : List (String × Material) → String → Option Material
  | [], _ => none
  | (k, m) :: rest, nm => if k = nm then some m else savedLookup rest nm

/-- `Map.set` on the saved-materials map: replaces the entry for an
existing key, otherwise appends. -/
def mapSet : List (String × Material) → String → Material → List (String × Material)
  | [], nm, m => [(nm, m)]
  | (k, m0) :: rest, nm, m =>
    if k = nm then (k, m) :: rest else (k, m0) :: mapSet rest nm m

/-- The material saved for a part by the save loop of `handleModelClick`
(lines 1677-1683): the traverse sets the map entry once per mesh child,
each write overwriting the previous one, so the surviving value is the
material of the last-traversed mesh; a part with no mesh children stores
nothing. -/
def lastChildMaterial (parts : List PartGroup) (nm : String) : Option Material :=
  match parts.find? (fun g => g.name = nm) with
  | none => none
  | some g => (g.children.map (fun c => c.material)).getLast?

/-- The restore loop of `handleModelClick` (lines 1648-1657): every mesh
child of the previously selected part receives `originalMaterial.clone()`,
a separate clone per mesh, each carrying a fresh object id from the
allocator and the saved material's parameters. -/
def cloneChildren : List MeshNode → Material → Nat → List MeshNode × Nat
  | [], _, nid => ([], nid)
  | c :: cs, mat, nid =>
    let c2 := { c with material := { id := nid, color := mat.color } }
    let r := cloneChildren cs mat (nid + 1)
    (c2 :: r.1, r.2)

/-- Applies the restore loop to every part group named `nm`, threading the
material-object allocator. -/
def restorePrev : List PartGroup → String → Material → Nat →
    List PartGroup × Nat
  | [], _, _, nid => ([], nid)
  | g :: gs, nm, mat, nid =>
    if g.name = nm then
      let c := cloneChildren g.children mat nid
      let r := restorePrev gs nm mat c.2
      ({ g with children := c.1 } :: r.1, r.2)
    else
      let r := restorePrev gs nm mat nid
      (g :: r.1, r.2)

/-- The restore phase of `handleModelClick` (lines 1642-1659): if a part
is selected, its saved material is looked up and, when found, a fresh
clone of it is assigned to every mesh child of that part; the selection
ref is cleared in both cases. -/
def handleModelClickRestore (s : EditorState) : EditorState :=
  match s.selectedPart with
  | none => s
  | some prevName =>
    match savedLookup s.savedMaterials prevName with
    | none => { s with selectedPart := none }
    | some origMat =>
      let r := restorePrev s.scene.parts prevName origMat s.nextMaterialId
      { s with scene := { s.scene with parts := r.1 },
               nextMaterialId := r.2,
               selectedPart := none }

/-- The highlight phase of `handleModelClick` (lines 1661-1701): if the
raycast resolved the click to one of the current object parts, that part
becomes selected, its last-traversed mesh material is saved (only when no
entry exists yet), and one freshly created blue highlight material
(`0x0088ff`) is shared across all of its meshes. -/
def handleModelClickHighlight (s1 : EditorState) (hit : Option String) :
    EditorState :=
  match hit with
  | none => s1
  | some clickedName =>
    if s1.objectParts.contains clickedName then
      let saved2 :=
        if (savedLookup s1.savedMaterials clickedName).isSome then
          s1.savedMaterials
        else
          match lastChildMaterial s1.scene.parts clickedName with
          | none => s1.savedMaterials
          | some m => mapSet s1.savedMaterials clickedName m
      let blue : Material := { id := s1.nextMaterialId, color := 0x0088ff }
      { s1 with
        selectedPart := some clickedName,
        savedMaterials := saved2,
        scene := { s1.scene with parts := s1.scene.parts.map (fun g =>
          if g.name = clickedName then
            { g with children :=
                g.children.map (fun c => { c with material := blue }) }
          else g) },
        nextMaterialId := s1.nextMaterialId + 1 }
    else s1

/-- `handleModelClick` (useCuttingLogic.ts lines 1618-1704).  `hit` is the
part group, if any, that the raycast walk-up (lines 1662-1670) resolved
the click to.  Returns early when a ref is missing; otherwise the restore
phase runs first and the highlight phase second. -/
def handleModelClick (s : EditorState) (hit : Option String) : EditorState :=
  if ¬ s.hasScene ∨ ¬ s.hasCamera ∨ ¬ s.hasRenderer then s
  else handleModelClickHighlight (handleModelClickRestore s) hit

/-- `useModelLoading.loadModel` (lines 1894-1982): the synchronous prefix
plus the loader success callback; the GLTF parse itself is the external
asset-loading collaborator and `loaded` is the model hierarchy it hands
back.  The previous model, if any, has its `isOriginalModel` flags
cleared and is removed from the scene and dropped; the new model is
tagged, normalized to size 2 and centered from its bounding box, and
attached.  Note that nothing here touches the cut counter, which lives in
`useCuttingLogic` and is not reachable from this hook. -/
def loadModel (s : EditorState) (loaded : Model) : EditorState :=
  if ¬ s.hasScene then { s with errorMsg := some msgSceneNotInitialized }
  else
    let s1 := { s with errorMsg := none, loadingProgress := 0 }
    let s2 :=
      match s1.model with
      | none => s1
      | some _old =>
        { s1 with scene := { s1.scene with modelInScene := false },
                  model := none }
    let tagged : Model := { loaded with
      nodes := loaded.nodes.map (fun n => { n with isOriginalModel := true }) }
    let c := boxCenter tagged.worldVerts
    let size := boxSize tagged.worldVerts
    let maxDim := max size.x (max size.y size.z)
    let scaleFactor := 2 / maxDim
    let m : Model := { tagged with
      scale := scaleFactor,
      position := (⟨-(c.x) * scaleFactor, -(c.y) * scaleFactor,
                    -(c.z) * scaleFactor⟩ : Vec3) }
    { s2 with scene := { s2.scene with modelInScene := true },
              model := some m,
              modelLoaded := true,
              loadingProgress := 100 }

/-- A red source material, used as the original material of demonstration
meshes. -/
def matRed : Material := ⟨1, 100⟩

/-- A green source material. -/
def matGreen : Material := ⟨2, 200⟩

/-- A mesh carrying the red material. -/
def meshA : MeshNode := ⟨10, matRed, false⟩

/-- A mesh carrying the green material. -/
def meshB : MeshNode := ⟨11, matGreen, false⟩

/-- The first part group of a completed demonstration cut. -/
def partA : PartGroup := ⟨"Part1", [meshA], [⟨0, 0, 0⟩], ⟨0, 0, 0⟩, 1⟩

/-- The second part group of a completed demonstration cut. -/
def partB : PartGroup := ⟨"Part2", [meshB], [⟨1, 1, 1⟩], ⟨0, 0, 0⟩, 1⟩

/-- A part group that collected no fragments. -/
def emptyPart : PartGroup := ⟨"Part1", [], [], ⟨0, 0, 0⟩, 1⟩

/-- A loaded single-mesh demonstration model. -/
def demoModel : Model := ⟨[⟨20, matRed, true⟩], [⟨0, 0, 0⟩], ⟨0, 0, 0⟩, 1⟩

/-- A second asset, loaded to replace the first model. -/
def demoModel2 : Model :=
  ⟨[⟨30, matGreen, false⟩], [⟨0, 0, 0⟩, ⟨2, 2, 2⟩], ⟨0, 0, 0⟩, 1⟩

/-- A freshly initialized editor with a loaded model, in View mode, before
any cut. -/
def baseState : EditorState :=
  { hasScene := true, hasCamera := true, hasRenderer := true,
    hasControls := true,
    scene := ⟨true, [], []⟩,
    model := some demoModel,
    cameraQuat := identityQuat,
    editorModeRef := EditorMode.view, displayMode := EditorMode.view,
    controlsEnabled := true, isProcessing := false, cutCount := 0,
    mouseStart := none, mouseEnd := none,
    objectParts := [], selectedPart := none, savedMaterials := [],
    nextMaterialId := 50, dragControls := none, clickListener := false,
    planeHelper := none, frozenPlane := none, errorMsg := none,
    loadingProgress := 100, modelLoaded := true }

/-- Cut mode with a frozen drag from the origin to `(1,0,0)` (length 1,
well above the `0.1` threshold), camera on +Z. -/
def cutReadyState : EditorState :=
  { baseState with editorModeRef := EditorMode.cut,
                   displayMode := EditorMode.cut,
                   mouseStart := some ⟨0, 0, 0⟩, mouseEnd := some ⟨1, 0, 0⟩ }

/-- The same drag attempted while the cut counter already reads 1 and the
mode ref still reads Cut. -/
def cutRetryState : EditorState := { cutReadyState with cutCount := 1 }

/-- Cut mode with a zero-length drag (both points at the origin). -/
def shortDragState : EditorState :=
  { cutReadyState with mouseEnd := some (⟨0, 0, 0⟩ : Vec3) }

/-- The canonical state after one successful cut: the mode was forced to
Move, the counter reads 1, the model left the scene and the two parts
entered it. -/
def postCutState : EditorState :=
  { baseState with editorModeRef := EditorMode.move,
                   displayMode := EditorMode.move,
                   cutCount := 1,
                   scene := ⟨false, [], [partA, partB]⟩,
                   objectParts := ["Part1", "Part2"],
                   mouseStart := some ⟨0, 0, 0⟩, mouseEnd := some ⟨1, 0, 0⟩,
                   dragControls := some ["Part1", "Part2"],
                   clickListener := true }

/-- `meshA` while highlighted: the blue highlight material object 49. -/
def meshAHi : MeshNode := ⟨10, ⟨49, 0x0088ff⟩, false⟩

/-- `partA` while highlighted. -/
def partAHi : PartGroup := { partA with children := [meshAHi] }

/-- Post-cut state in which Part1 is selected and highlighted and its
original (red) material is saved in the saved-materials map. -/
def selState : EditorState :=
  { postCutState with scene := ⟨false, [], [partAHi, partB]⟩,
                      selectedPart := some "Part1",
                      savedMaterials := [("Part1", matRed)] }

/-- The eight corners of a rectangular box centered at the origin
(2 x 2 x 1), the mesh of the specification's drag scenario. -/
def scenarioBoxVerts : List Vec3 :=
  [⟨-1, -1, -(1 / 2)⟩, ⟨1, -1, -(1 / 2)⟩, ⟨-1, 1, -(1 / 2)⟩, ⟨1, 1, -(1 / 2)⟩,
   ⟨-1, -1, 1 / 2⟩, ⟨1, -1, 1 / 2⟩, ⟨-1, 1, 1 / 2⟩, ⟨1, 1, 1 / 2⟩]

/-- World point the scenario's first screen point `(-0.2, 0)` resolves to:
with the camera on +Z looking at the origin, the ray through a screen
point with zero vertical offset stays in the `y = 0` plane and hits the
box's front face `z = 1/2`. -/
def scenarioStart : Vec3 := ⟨-(1 / 5), 0, 1 / 2⟩

/-- World point the scenario's second screen point `(0.2, 0)` resolves to
(same camera, same front face). -/
def scenarioEnd : Vec3 := ⟨1 / 5, 0, 1 / 2⟩

/-! Helper lemmas shared by the claim theorems. -/

theorem applyQuaternion_identity (v : Vec3) : applyQuaternion identityQuat v = v := by
  cases v with
  | mk x y z => simp [applyQuaternion, identityQuat]

theorem normalize_zero : Vec3.normalize ⟨0, 0, 0⟩ = (⟨0, 0, 0⟩ : Vec3) := by
  simp [Vec3.normalize, Vec3.length, Vec3.lengthSq]

theorem distanceTo_origin_unitX :
    Vec3.distanceTo ⟨0, 0, 0⟩ ⟨1, 0, 0⟩ = 1 := by
  have h : Vec3.distanceToSquared ⟨0, 0, 0⟩ ⟨1, 0, 0⟩ = 1 := by
    simp [Vec3.distanceToSquared, Vec3.lengthSq, Vec3.sub]
  rw [Vec3.distanceTo, h, Real.sqrt_one]

theorem distanceTo_origin_origin :
    Vec3.distanceTo ⟨0, 0, 0⟩ ⟨0, 0, 0⟩ = 0 := by
  have h : Vec3.distanceToSquared ⟨0, 0, 0⟩ ⟨0, 0, 0⟩ = 0 := by
    simp [Vec3.distanceToSquared, Vec3.lengthSq, Vec3.sub]
  rw [Vec3.distanceTo, h, Real.sqrt_zero]

theorem performCutPlane_normal_zero (mv : List Vec3) (q : Quat) (st en : Vec3)
    (h : Vec3.cross (Vec3.sub en st) (applyQuaternion q ⟨1, 0, 0⟩) = ⟨0, 0, 0⟩) :
    (performCutPlane mv q st en).normal = ⟨0, 0, 0⟩ := by
  unfold performCutPlane Plane.setFromNormalAndCoplanarPoint
  simp [h, normalize_zero]

theorem performCut_commit (s : EditorState) (m : Model) (st en : Vec3)
    (hmode : s.editorModeRef = EditorMode.cut) (hproc : s.isProcessing = false)
    (hscene : s.hasScene = true) (hm : s.model = some m)
    (hst : s.mouseStart = some st) (hen : s.mouseEnd = some en)
    (hdist : ¬ (Vec3.distanceTo st en < 1 / 10)) (hcount : s.cutCount = 0) :
    performCut s =
      { s with isProcessing := true,
               errorMsg := some msgProcessingCut,
               frozenPlane := some (performCutPlane m.worldVerts
                 s.cameraQuat st en) } := by
  unfold performCut
  rw [if_neg (by simp [hmode]), if_neg (by simp [hproc]),
      if_neg (by simp [hscene]), hm]
  dsimp only
  rw [hst, hen]
  dsimp only
  rw [if_neg hdist, hcount, if_neg (lt_irrefl 0)]

/-! Claim theorems. -/

/-- C3: the plane derivation used for the live preview and the plane
derivation used for the committed cut are the identical function of the
model's bounding-box vertices, the camera orientation, and the two drag
points: they produce the same plane (same normal, same constant, hence
the same coplanar point). -/
theorem preview_and_commit_derivations_agree :
    ∀ (mv : List Vec3) (q : Quat) (st en : Vec3),
      previewPlane mv q st en = performCutPlane mv q st en := by
  intro mv q st en
  rfl

/-- C10: invoking `performCut` while the editor mode ref is not Cut is a
complete no-op: the state (scene, cut state, processing flag, reported
error) is returned unchanged, regardless of the stored drag points or the
cut counter. -/
theorem performCut_noop_outside_cut_mode :
    ∀ s : EditorState, s.editorModeRef ≠ EditorMode.cut → performCut s = s := by
  intro s h
  unfold performCut
  rw [if_pos h]

/-- Witness for C10 at a concrete View-mode state. -/
theorem performCut_noop_outside_cut_mode_witness :
    baseState.editorModeRef ≠ EditorMode.cut ∧ performCut baseState = baseState :=
  ⟨by decide, performCut_noop_outside_cut_mode baseState (by decide)⟩

/-- C9: a drag whose start-to-end distance is below the `0.1` threshold
makes the cut-commit path return with the state unchanged: no cut is
performed and no user-facing error message is reported (the too-short
drag is silently ignored). -/
theorem short_drag_silently_ignored :
    ∀ (s : EditorState) (m : Model) (st en : Vec3),
      s.editorModeRef = EditorMode.cut → s.isProcessing = false →
      s.hasScene = true → s.model = some m →
      s.mouseStart = some st → s.mouseEnd = some en →
      Vec3.distanceTo st en < 1 / 10 →
      performCut s = s := by
  intro s m st en hmode hproc hscene hm hst hen hdist
  unfold performCut
  rw [if_neg (by simp [hmode]), if_neg (by simp [hproc]),
      if_neg (by simp [hscene]), hm]
  dsimp only
  rw [hst, hen]
  dsimp only
  rw [if_pos hdist]

/-- Witness for C9 at a concrete zero-length drag. -/
theorem short_drag_silently_ignored_witness :
    shortDragState.editorModeRef = EditorMode.cut ∧
    shortDragState.mouseStart = some ⟨0, 0, 0⟩ ∧
    shortDragState.mouseEnd = some ⟨0, 0, 0⟩ ∧
    Vec3.distanceTo ⟨0, 0, 0⟩ ⟨0, 0, 0⟩ < 1 / 10 ∧
    performCut shortDragState = shortDragState := by
  have hd : Vec3.distanceTo ⟨0, 0, 0⟩ ⟨0, 0, 0⟩ < 1 / 10 := by
    rw [distanceTo_origin_origin]; norm_num
  exact ⟨rfl, rfl, rfl, hd,
    short_drag_silently_ignored shortDragState demoModel ⟨0, 0, 0⟩ ⟨0, 0, 0⟩
      rfl rfl rfl rfl rfl rfl hd⟩

/-- The cross product of the scenario's drag vector with the camera-right
vector degenerates to the zero vector: with the camera on +Z, a
horizontal drag is parallel to `cameraRight = (1,0,0)`. -/
theorem scenario_cross_zero :
    Vec3.cross (Vec3.sub scenarioEnd scenarioStart)
      (applyQuaternion identityQuat ⟨1, 0, 0⟩) = (⟨0, 0, 0⟩ : Vec3) := by
  rw [applyQuaternion_identity]
  simp [Vec3.cross, Vec3.sub, scenarioStart, scenarioEnd]

/-- C2 counterexample: for the box-and-horizontal-drag scenario the
committed plane normal computed by `performCut` is exactly the zero
vector, whose y component is 0, so it is not approximately `(0,1,0)` up
to sign (any such vector has `|y|` at least `1/2`). -/
theorem horizontal_drag_normal_is_zero :
    (performCutPlane scenarioBoxVerts identityQuat scenarioStart
        scenarioEnd).normal = ⟨0, 0, 0⟩ ∧
    ¬ ((1 : ℝ) / 2 ≤
        |(performCutPlane scenarioBoxVerts identityQuat scenarioStart
            scenarioEnd).normal.y|) := by
  have hz := performCutPlane_normal_zero scenarioBoxVerts identityQuat
    scenarioStart scenarioEnd scenario_cross_zero
  refine ⟨hz, ?_⟩
  rw [hz]
  norm_num

/-- C2 (amended): the committed cutting plane is exactly the spec's
solver formula (normal `normalize(cross(dragVector, cameraRight))`,
plane through the model's bounding-box center, on which the plane's
signed distance is 0); but in the stated scenario (box centered at the
origin, camera on +Z, horizontal drag) the drag vector is parallel to
`cameraRight`, so the computed normal is the zero vector rather than
approximately `(0,1,0)`. -/
theorem committed_plane_formula_and_degenerate_scenario :
    (∀ (mv : List Vec3) (q : Quat) (st en : Vec3),
      performCutPlane mv q st en = specSolverPlane mv q st en) ∧
    (∀ (mv : List Vec3) (q : Quat) (st en : Vec3),
      (performCutPlane mv q st en).distanceToPoint (boxCenter mv) = 0) ∧
    (performCutPlane scenarioBoxVerts identityQuat scenarioStart
        scenarioEnd).normal = ⟨0, 0, 0⟩ := by
  refine ⟨fun mv q st en => rfl, fun mv q st en => ?_, ?_⟩
  · unfold performCutPlane Plane.setFromNormalAndCoplanarPoint
      Plane.distanceToPoint
    simp [Vec3.dot]
    ring
  · exact performCutPlane_normal_zero scenarioBoxVerts identityQuat
      scenarioStart scenarioEnd scenario_cross_zero

/-- C5 counterexample: a drag of length 1 (well above the threshold)
parallel to the camera-right vector is not rejected: `performCut`
proceeds — the processing flag is raised and the progress message is
reported — and the frozen cutting plane carries the degenerate zero
normal. -/
theorem cut_proceeds_despite_degenerate_normal :
    (performCut cutReadyState).isProcessing = true ∧
    Option.map Plane.normal (performCut cutReadyState).frozenPlane =
      some ⟨0, 0, 0⟩ ∧
    (performCut cutReadyState).errorMsg = some msgProcessingCut := by
  have hdist : ¬ (Vec3.distanceTo ⟨0, 0, 0⟩ ⟨1, 0, 0⟩ < 1 / 10) := by
    rw [distanceTo_origin_unitX]; norm_num
  have h := performCut_commit cutReadyState demoModel ⟨0, 0, 0⟩ ⟨1, 0, 0⟩
    rfl rfl rfl rfl rfl rfl hdist rfl
  rw [h]
  refine ⟨rfl, ?_, rfl⟩
  have hz : (performCutPlane demoModel.worldVerts cutReadyState.cameraQuat
      ⟨0, 0, 0⟩ ⟨1, 0, 0⟩).normal = ⟨0, 0, 0⟩ := by
    refine performCutPlane_normal_zero _ _ _ _ ?_
    have hq : cutReadyState.cameraQuat = identityQuat := rfl
    rw [hq, applyQuaternion_identity]
    simp [Vec3.cross, Vec3.sub]
  simp [hz]

/-- C5 (amended): the plane solver performs no degeneracy detection.
Whenever the commit path is reached with a drag whose cross product with
the camera-right vector is exactly zero (a drag parallel to
`cameraRight`), the cut still proceeds: the processing flag is raised,
the progress message is reported, and the frozen plane normal is the
zero vector — there is no rejection and no reuse of a previous normal. -/
theorem parallel_drag_proceeds_with_zero_normal :
    ∀ (s : EditorState) (m : Model) (st en : Vec3),
      s.editorModeRef = EditorMode.cut → s.isProcessing = false →
      s.hasScene = true → s.model = some m →
      s.mouseStart = some st → s.mouseEnd = some en →
      ¬ (Vec3.distanceTo st en < 1 / 10) → s.cutCount = 0 →
      Vec3.cross (Vec3.sub en st)
        (applyQuaternion s.cameraQuat ⟨1, 0, 0⟩) = ⟨0, 0, 0⟩ →
      (performCut s).isProcessing = true ∧
      Option.map Plane.normal (performCut s).frozenPlane = some ⟨0, 0, 0⟩ ∧
      (performCut s).errorMsg = some msgProcessingCut := by
  intro s m st en hmode hproc hscene hm hst hen hdist hcount hcross
  rw [performCut_commit s m st en hmode hproc hscene hm hst hen hdist hcount]
  refine ⟨rfl, ?_, rfl⟩
  have hz := performCutPlane_normal_zero m.worldVerts s.cameraQuat st en hcross
  simp [hz]

/-- Witness for C5 at the concrete degenerate drag. -/
theorem parallel_drag_proceeds_with_zero_normal_witness :
    cutReadyState.editorModeRef = EditorMode.cut ∧
    ¬ (Vec3.distanceTo ⟨0, 0, 0⟩ ⟨1, 0, 0⟩ < 1 / 10) ∧
    Vec3.cross (Vec3.sub ⟨1, 0, 0⟩ ⟨0, 0, 0⟩)
      (applyQuaternion cutReadyState.cameraQuat ⟨1, 0, 0⟩) = ⟨0, 0, 0⟩ ∧
    ((performCut cutReadyState).isProcessing = true ∧
     Option.map Plane.normal (performCut cutReadyState).frozenPlane =
       some ⟨0, 0, 0⟩ ∧
     (performCut cutReadyState).errorMsg = some msgProcessingCut) := by
  have hdist : ¬ (Vec3.distanceTo ⟨0, 0, 0⟩ ⟨1, 0, 0⟩ < 1 / 10) := by
    rw [distanceTo_origin_unitX]; norm_num
  have hcross : Vec3.cross (Vec3.sub ⟨1, 0, 0⟩ ⟨0, 0, 0⟩)
      (applyQuaternion cutReadyState.cameraQuat ⟨1, 0, 0⟩) = (⟨0, 0, 0⟩ : Vec3) := by
    have hq : cutReadyState.cameraQuat = identityQuat := rfl
    rw [hq, applyQuaternion_identity]
    simp [Vec3.cross, Vec3.sub]
  exact ⟨rfl, hdist, hcross,
    parallel_drag_proceeds_with_zero_normal cutReadyState demoModel
      ⟨0, 0, 0⟩ ⟨1, 0, 0⟩ rfl rfl rfl rfl rfl rfl hdist rfl hcross⟩

/-- C1 counterexample: in the canonical state after one successful cut
(the mode refs were forced to Move, the counter reads 1, the drag points
are still stored and well separated), a second invocation of
`performCut` is a silent no-op: it leaves the whole state — in
particular the scene's part set — unchanged and reports no user-facing
one-shot message at all (the error slot stays empty). -/
theorem second_performCut_is_silent :
    performCut postCutState = postCutState ∧
    (performCut postCutState).errorMsg = none ∧
    (performCut postCutState).scene.parts = postCutState.scene.parts := by
  have h : performCut postCutState = postCutState := by
    unfold performCut
    rw [if_pos (by decide)]
  exact ⟨h, by rw [h]; rfl, by rw [h]⟩

/-- C1 (amended): after one successful cut the scene's part set is never
changed by a further cut attempt; entering Cut mode through
`toggleEditorMode` is rejected with the one-shot message and both mode
refs are forced to Move; invoking `performCut` reports the one-shot
message (and forces only the displayed mode to Move) just when the mode
ref still reads Cut and the stored drag is valid and long enough — in
the canonical post-cut state, where the mode was already forced to Move,
`performCut` instead returns silently with no message and no mutation. -/
theorem one_shot_gate :
    ∀ s : EditorState,
      (s.editorModeRef ≠ EditorMode.cut → performCut s = s) ∧
      (∀ (m : Model) (st en : Vec3),
        s.editorModeRef = EditorMode.cut → s.isProcessing = false →
        s.hasScene = true → s.model = some m →
        s.mouseStart = some st → s.mouseEnd = some en →
        ¬ (Vec3.distanceTo st en < 1 / 10) → 0 < s.cutCount →
        performCut s = { s with errorMsg := some msgOneShotPerformCut,
                                displayMode := EditorMode.move }) ∧
      (0 < s.cutCount →
        (toggleEditorMode s EditorMode.cut).errorMsg = some msgOneShotToggle ∧
        (toggleEditorMode s EditorMode.cut).editorModeRef = EditorMode.move ∧
        (toggleEditorMode s EditorMode.cut).displayMode = EditorMode.move ∧
        (toggleEditorMode s EditorMode.cut).scene = s.scene ∧
        (toggleEditorMode s EditorMode.cut).cutCount = s.cutCount) := by
  intro s
  refine ⟨?_, ?_, ?_⟩
  · intro h
    unfold performCut
    rw [if_pos h]
  · intro m st en hmode hproc hscene hm hst hen hdist hcount
    unfold performCut
    rw [if_neg (by simp [hmode]), if_neg (by simp [hproc]),
        if_neg (by simp [hscene]), hm]
    dsimp only
    rw [hst, hen]
    dsimp only
    rw [if_neg hdist, if_pos hcount]
  · intro hcount
    refine ⟨?_, ?_, ?_, ?_, ?_⟩ <;>
      (by_cases hop : s.objectParts = [] <;>
        (simp [toggleEditorMode, setupDragControls, hcount, hop];
         try (split <;> simp)))

/-- Witness for C1: the silent second call, the in-Cut-mode retry, and
the rejected Cut-mode toggle, each at a concrete state. -/
theorem one_shot_gate_witness :
    (baseState.editorModeRef ≠ EditorMode.cut ∧
      performCut baseState = baseState) ∧
    (0 < cutRetryState.cutCount ∧
      performCut cutRetryState =
        { cutRetryState with errorMsg := some msgOneShotPerformCut,
                             displayMode := EditorMode.move }) ∧
    (0 < postCutState.cutCount ∧
      (toggleEditorMode postCutState EditorMode.cut).errorMsg =
        some msgOneShotToggle ∧
      (toggleEditorMode postCutState EditorMode.cut).editorModeRef =
        EditorMode.move) := by
  have hdist : ¬ (Vec3.distanceTo ⟨0, 0, 0⟩ ⟨1, 0, 0⟩ < 1 / 10) := by
    rw [distanceTo_origin_unitX]; norm_num
  refine ⟨⟨by decide, (one_shot_gate baseState).1 (by decide)⟩,
          ⟨by decide, (one_shot_gate cutRetryState).2.1 demoModel
            ⟨0, 0, 0⟩ ⟨1, 0, 0⟩ rfl rfl rfl rfl rfl rfl hdist (by decide)⟩,
          ⟨by decide, ((one_shot_gate postCutState).2.2 (by decide)).1,
            ((one_shot_gate postCutState).2.2 (by decide)).2.1⟩⟩

/-- C4: when either side of the split collected zero fragments,
`finalizeGroupCut` rejects the whole cut with the one-side-empty failure
report and leaves the state otherwise untouched: the scene (with the
original model still in it) is unchanged, neither part is added, and the
cut counter is not incremented. -/
theorem empty_side_rejects_and_rolls_back :
    ∀ (s : EditorState) (m : Model) (p1 p2 : PartGroup),
      s.model = some m → s.hasScene = true →
      (p1.children.length = 0 ∨ p2.children.length = 0) →
      finalizeGroupCut s p1 p2 =
        ({ s with isProcessing := false, errorMsg := some msgSideEmpty }, []) ∧
      (finalizeGroupCut s p1 p2).1.scene = s.scene ∧
      (finalizeGroupCut s p1 p2).1.cutCount = s.cutCount := by
  intro s m p1 p2 hm hscene hempty
  have h : finalizeGroupCut s p1 p2 =
      ({ s with isProcessing := false, errorMsg := some msgSideEmpty }, []) := by
    unfold finalizeGroupCut
    rw [hm]
    dsimp only
    rw [if_neg (by simp [hscene]), if_pos hempty]
  exact ⟨h, by rw [h], by rw [h]⟩

/-- Witness for C4 at a concrete empty first side. -/
theorem empty_side_rejects_and_rolls_back_witness :
    (emptyPart.children.length = 0 ∨ partB.children.length = 0) ∧
    finalizeGroupCut baseState emptyPart partB =
      ({ baseState with isProcessing := false,
                        errorMsg := some msgSideEmpty }, []) ∧
    (finalizeGroupCut baseState emptyPart partB).1.scene = baseState.scene := by
  have h := empty_side_rejects_and_rolls_back baseState demoModel emptyPart
    partB rfl rfl (Or.inl rfl)
  exact ⟨Or.inl rfl, h.1, h.2.1⟩

/-- C8 counterexample: on a concrete successful assembly the recorded
effect order shows the model's descendants are tagged only AFTER the
model was removed and AFTER the defensive sweep ran — not tag, then
remove, then sweep. -/
theorem tagging_happens_after_sweep :
    (finalizeGroupCut baseState partA partB).2 =
      [AssembleStep.clearPrevParts, AssembleStep.removeModel,
       AssembleStep.sweepScene, AssembleStep.tagModel,
       AssembleStep.separateParts, AssembleStep.clampScale,
       AssembleStep.addParts, AssembleStep.incrementCutCount,
       AssembleStep.clearSelection, AssembleStep.setModeMove] ∧
    ¬ ((finalizeGroupCut baseState partA partB).2.indexOf
         AssembleStep.tagModel <
       (finalizeGroupCut baseState partA partB).2.indexOf
         AssembleStep.removeModel) ∧
    ¬ ((finalizeGroupCut baseState partA partB).2.indexOf
         AssembleStep.tagModel <
       (finalizeGroupCut baseState partA partB).2.indexOf
         AssembleStep.sweepScene) := by
  have h : (finalizeGroupCut baseState partA partB).2 =
      [AssembleStep.clearPrevParts, AssembleStep.removeModel,
       AssembleStep.sweepScene, AssembleStep.tagModel,
       AssembleStep.separateParts, AssembleStep.clampScale,
       AssembleStep.addParts, AssembleStep.incrementCutCount,
       AssembleStep.clearSelection, AssembleStep.setModeMove] := rfl
  refine ⟨h, ?_, ?_⟩ <;> rw [h] <;> decide

/-- C8 (amended): on every successful assembly `finalizeGroupCut`
removes the model first, then runs the defensive sweep, and only then
tags the model's descendant nodes as part of the original model (so the
sweep observes tags set at load time, not tags set here); after the call
every descendant node of the detached model carries the tag. -/
theorem assembly_removes_then_sweeps_then_tags :
    ∀ (s : EditorState) (m : Model) (p1 p2 : PartGroup),
      s.model = some m → s.hasScene = true →
      p1.children.length ≠ 0 → p2.children.length ≠ 0 →
      (finalizeGroupCut s p1 p2).2 =
        [AssembleStep.clearPrevParts, AssembleStep.removeModel,
         AssembleStep.sweepScene, AssembleStep.tagModel,
         AssembleStep.separateParts, AssembleStep.clampScale,
         AssembleStep.addParts, AssembleStep.incrementCutCount,
         AssembleStep.clearSelection, AssembleStep.setModeMove] ∧
      (finalizeGroupCut s p1 p2).2.indexOf AssembleStep.removeModel <
        (finalizeGroupCut s p1 p2).2.indexOf AssembleStep.sweepScene ∧
      (finalizeGroupCut s p1 p2).2.indexOf AssembleStep.sweepScene <
        (finalizeGroupCut s p1 p2).2.indexOf AssembleStep.tagModel ∧
      ∃ m2 : Model, (finalizeGroupCut s p1 p2).1.model = some m2 ∧
        ∀ n ∈ m2.nodes, n.isOriginalModel = true := by
  intro s m p1 p2 hm hscene h1 h2
  have htr : (finalizeGroupCut s p1 p2).2 =
      [AssembleStep.clearPrevParts, AssembleStep.removeModel,
       AssembleStep.sweepScene, AssembleStep.tagModel,
       AssembleStep.separateParts, AssembleStep.clampScale,
       AssembleStep.addParts, AssembleStep.incrementCutCount,
       AssembleStep.clearSelection, AssembleStep.setModeMove] := by
    unfold finalizeGroupCut
    rw [hm]
    dsimp only
    rw [if_neg (by simp [hscene]), if_neg (by simp [h1, h2])]
  have hmodel : (finalizeGroupCut s p1 p2).1.model =
      some { m with
        nodes := m.nodes.map (fun n => { n with isOriginalModel := true }) } := by
    unfold finalizeGroupCut
    rw [hm]
    dsimp only
    rw [if_neg (by simp [hscene]), if_neg (by simp [h1, h2])]
    unfold setupDragControls
    dsimp only
    split <;> rfl
  refine ⟨htr, by rw [htr]; decide, by rw [htr]; decide, ⟨_, hmodel, ?_⟩⟩
  intro n hn
  simp only [List.mem_map] at hn
  obtain ⟨a, _, rfl⟩ := hn
  rfl

/-- Witness for C8 at a concrete successful assembly. -/
theorem assembly_removes_then_sweeps_then_tags_witness :
    partA.children.length ≠ 0 ∧ partB.children.length ≠ 0 ∧
    ((finalizeGroupCut baseState partA partB).2.indexOf
        AssembleStep.removeModel <
      (finalizeGroupCut baseState partA partB).2.indexOf
        AssembleStep.sweepScene ∧
     (finalizeGroupCut baseState partA partB).2.indexOf
        AssembleStep.sweepScene <
      (finalizeGroupCut baseState partA partB).2.indexOf
        AssembleStep.tagModel) := by
  have h := assembly_removes_then_sweeps_then_tags baseState demoModel partA
    partB rfl rfl (by decide) (by decide)
  exact ⟨by decide, by decide, h.2.1, h.2.2.1⟩

/-- C7: loading a new asset never resets the cut counter — no code path
of `useModelLoading.loadModel` touches it (the counter lives in the
cutting hook, unreachable from the loading hook).  Consequently, after
one cut and a fresh load the counter still reads 1 and Cut-mode entry on
the freshly loaded model is still rejected with the one-shot message,
with the mode forced to Move — the counter is not scoped to the lifetime
of the active model. -/
theorem loadModel_keeps_cut_counter :
    (∀ (s : EditorState) (loaded : Model),
      (loadModel s loaded).cutCount = s.cutCount) ∧
    (loadModel postCutState demoModel2).cutCount = 1 ∧
    (toggleEditorMode (loadModel postCutState demoModel2)
        EditorMode.cut).errorMsg = some msgOneShotToggle ∧
    (toggleEditorMode (loadModel postCutState demoModel2)
        EditorMode.cut).editorModeRef = EditorMode.move := by
  refine ⟨?_, rfl, rfl, rfl⟩
  intro s loaded
  unfold loadModel
  split
  · rfl
  · dsimp only
    split <;> rfl

/-- The per-mesh restore loop assigns clones carrying the saved
material's parameters and fresh ids at or above the allocator mark, and
the allocator never decreases. -/
theorem cloneChildren_spec (cs : List MeshNode) (mat : Material) :
    ∀ nid : Nat,
      nid ≤ (cloneChildren cs mat nid).2 ∧
      ∀ c ∈ (cloneChildren cs mat nid).1,
        c.material.color = mat.color ∧ nid ≤ c.material.id := by
  induction cs with
  | nil =>
    intro nid
    exact ⟨Nat.le_refl nid, by simp [cloneChildren]⟩
  | cons c cs ih =>
    intro nid
    obtain ⟨h1, h2⟩ := ih (nid + 1)
    refine ⟨Nat.le_trans (Nat.le_succ nid) h1, ?_⟩
    intro d hd
    simp only [cloneChildren, List.mem_cons] at hd
    rcases hd with rfl | hd2
    · exact ⟨rfl, Nat.le_refl nid⟩
    · obtain ⟨hc, hle⟩ := h2 d hd2
      exact ⟨hc, Nat.le_trans (Nat.le_succ nid) hle⟩

/-- Every part group named `nm` in the restore phase's output has all of
its mesh materials replaced by clones of `mat`: same color, object id at
or above the allocator mark. -/
theorem restorePrev_spec (gs : List PartGroup) (nm : String) (mat : Material) :
    ∀ nid : Nat, ∀ g ∈ (restorePrev gs nm mat nid).1, g.name = nm →
      ∀ c ∈ g.children, c.material.color = mat.color ∧ nid ≤ c.material.id := by
  induction gs with
  | nil =>
    intro nid g hg
    simp [restorePrev] at hg
  | cons g0 gs ih =>
    intro nid g hg hname c hc
    by_cases h0 : g0.name = nm
    · simp only [restorePrev] at hg
      rw [if_pos h0] at hg
      simp only [List.mem_cons] at hg
      rcases hg with rfl | htail
      · exact (cloneChildren_spec g0.children mat nid).2 c hc
      · have hmono := (cloneChildren_spec g0.children mat nid).1
        obtain ⟨hcol, hle⟩ :=
          ih ((cloneChildren g0.children mat nid).2) g htail hname c hc
        exact ⟨hcol, Nat.le_trans hmono hle⟩
    · simp only [restorePrev] at hg
      rw [if_neg h0] at hg
      simp only [List.mem_cons] at hg
      rcases hg with rfl | htail
      · exact absurd hname h0
      · exact ih nid g htail hname c hc

/-- The highlight phase leaves every part group not named after the hit
part untouched. -/
theorem highlight_keeps_other_parts (s1 : EditorState) (hit : Option String)
    (nm : String) (hne : hit ≠ some nm) :
    ∀ g ∈ (handleModelClickHighlight s1 hit).scene.parts,
      g.name = nm → g ∈ s1.scene.parts := by
  intro g hg hname
  cases hit with
  | none => exact hg
  | some clicked =>
    have hcn : clicked ≠ nm := fun h => hne (by rw [h])
    unfold handleModelClickHighlight at hg
    dsimp only at hg
    by_cases hmem : s1.objectParts.contains clicked
    · rw [if_pos hmem] at hg
      dsimp only at hg
      simp only [List.mem_map] at hg
      obtain ⟨g0, hg0, rfl⟩ := hg
      by_cases h0 : g0.name = clicked
      · rw [if_pos h0] at hname
        exact absurd (h0.symm.trans hname) hcn
      · rw [if_neg h0]
        exact hg0
    · rw [if_neg hmem] at hg
      exact hg

/-- C6 counterexample: Part1 is selected with its original red material
(object id 1) saved; clicking Part2 restores Part1's mesh with material
object id 50 — a fresh clone of the red material, not the identical
saved object — and highlights Part2 with the fresh blue material 51. -/
theorem restored_material_is_new_clone :
    ((handleModelClick selState (some "Part2")).scene.parts.map
      (fun g => g.children.map (fun c => c.material))) =
      [[⟨50, 100⟩], [⟨51, 0x0088ff⟩]] ∧
    ((⟨50, 100⟩ : Material) ≠ matRed) := by
  exact ⟨by decide, by decide⟩

/-- C6 (amended): when the selection changes away from a part whose
material was saved, every mesh of that part receives a fresh clone of
the one saved material (the material of the part's last-traversed mesh):
the clone carries the saved color but a newly allocated object id, so it
is not the identical material object; the restoration still happens
before the highlight is applied to the newly hit part. -/
theorem restore_assigns_fresh_clones :
    ∀ (s : EditorState) (hit : Option String) (prevName : String)
      (origMat : Material),
      s.hasScene = true → s.hasCamera = true → s.hasRenderer = true →
      s.selectedPart = some prevName →
      savedLookup s.savedMaterials prevName = some origMat →
      hit ≠ some prevName →
      origMat.id < s.nextMaterialId →
      ∀ g ∈ (handleModelClick s hit).scene.parts, g.name = prevName →
        ∀ c ∈ g.children,
          c.material.color = origMat.color ∧
          s.nextMaterialId ≤ c.material.id ∧
          c.material ≠ origMat := by
  intro s hit prevName origMat hS hC hR hsel hsaved hne hlt g hg hname c hc
  have hclick : handleModelClick s hit =
      handleModelClickHighlight (handleModelClickRestore s) hit := by
    unfold handleModelClick
    rw [if_neg (by simp [hS, hC, hR])]
  rw [hclick] at hg
  have hrest : (handleModelClickRestore s).scene.parts =
      (restorePrev s.scene.parts prevName origMat s.nextMaterialId).1 := by
    unfold handleModelClickRestore
    rw [hsel]
    dsimp only
    rw [hsaved]
  have hg2 : g ∈ (handleModelClickRestore s).scene.parts :=
    highlight_keeps_other_parts (handleModelClickRestore s) hit prevName hne
      g hg hname
  rw [hrest] at hg2
  obtain ⟨hcol, hle⟩ := restorePrev_spec s.scene.parts prevName origMat
    s.nextMaterialId g hg2 hname c hc
  refine ⟨hcol, hle, ?_⟩
  intro he
  rw [he] at hle
  omega

/-- Witness for C6 at the concrete two-part selection state. -/
theorem restore_assigns_fresh_clones_witness :
    selState.selectedPart = some "Part1" ∧
    savedLookup selState.savedMaterials "Part1" = some matRed ∧
    matRed.id < selState.nextMaterialId ∧
    (∀ g ∈ (handleModelClick selState (some "Part2")).scene.parts,
      g.name = "Part1" → ∀ c ∈ g.children,
        c.material.color = matRed.color ∧
        selState.nextMaterialId ≤ c.material.id ∧
        c.material ≠ matRed) :=
  ⟨rfl, by decide, by decide,
    restore_assigns_fresh_clones selState (some "Part2") "Part1" matRed
      rfl rfl rfl rfl (by decide) (by decide) (by decide)⟩

end

end SliceNMorph
